import Mathlib

/-!
Shallow embedding of the hibernado plugin backend (src/main.py).

The Python source drives hibernation on a SteamOS handheld: it checks
readiness through a privileged helper script, prepares swap and resume
parameters, resolves the resume target (device major:minor and swapfile
extent offset) and performs the ordered sysfs writes that trigger
hibernation.  Effectful operations (subprocess invocations, sysfs file
writes, symlink probes) are modelled by explicit environment records that
fix the outcome of each call site; every embedded operation returns its
result dictionary together with a trace of the externally visible events
it performed, so that ordering claims can be stated about the trace.
-/

/-! ## Python string primitives

Each def models the corresponding CPython string operation, restricted to
the ways src/main.py uses it. -/

/-- The characters removed by Python str.strip() with no argument
(ASCII whitespace; the rare further Unicode space characters never occur
in the strings this program handles). -/
def isPySpace (c : Char) : Bool :=
  c = ' ' || c = '\t' || c = '\n' || c = '\r' || c = '\x0b' || c = '\x0c'

/-- Python str.strip(): drop whitespace from both ends. -/
def pyStrip (s : String) : String :=
  String.mk (((s.toList.dropWhile isPySpace).reverse.dropWhile isPySpace).reverse)

/-- Python str.lower() (ASCII data only in this program). -/
def pyLower (s : String) : String :=
  String.mk (s.toList.map Char.toLower)

/-- Python str.startswith(pre). -/
def pyStartsWith (s pre : String) : Bool :=
  pre.toList.isPrefixOf s.toList

/-- Python str.rstrip(".") as used on the extent offset field. -/
def pyRstripDots (s : String) : String :=
  String.mk ((s.toList.reverse.dropWhile (fun c => c = '.')).reverse)

/-- The characters of a string after the first occurrence of the
(nonempty) needle, or none when the needle does not occur.  This is the
scan CPython performs for the membership test needle in hay. -/
def afterFirst (needle : List Char) : List Char → Option (List Char)
  | [] => none
  | c :: rest =>
      if needle.isPrefixOf (c :: rest) then some ((c :: rest).drop needle.length)
      else afterFirst needle rest

/-- The characters of a string strictly before the first occurrence of the
(nonempty) needle; the whole string when the needle does not occur. -/
def uptoMarker (needle : List Char) : List Char → List Char
  | [] => []
  | c :: rest =>
      if needle.isPrefixOf (c :: rest) then [] else c :: uptoMarker needle rest

/-- Python substring membership, needle in hay, for a nonempty needle. -/
def containsSub (needle hay : String) : Bool :=
  (afterFirst needle.toList hay.toList).isSome

/-- Accumulator loop for Python str.split(sep) with a one-character
separator: cut at every occurrence, keeping empty pieces. -/
def charSplitAux (sep : Char) : List Char → List Char → List (List Char)
  | [], acc => [acc.reverse]
  | c :: rest, acc =>
      if c = sep then acc.reverse :: charSplitAux sep rest []
      else charSplitAux sep rest (c :: acc)

/-- Python str.split(sep) for a one-character separator (the source only
splits on single-character separators after the marker split). -/
def pySplitChar (sep : Char) (s : String) : List String :=
  (charSplitAux sep s.toList []).map String.mk

/-- Accumulator loop cutting a character list at every whitespace
character, keeping empty pieces (they are filtered out afterwards, which
is exactly Python str.split() with no argument). -/
def wsSplitAux : List Char → List Char → List (List Char)
  | [], acc => [acc.reverse]
  | c :: rest, acc =>
      if isPySpace c then acc.reverse :: wsSplitAux rest []
      else wsSplitAux rest (c :: acc)

/-- Python str.split() with no argument: split on whitespace runs,
discarding empty fields. -/
def pySplitWs (s : String) : List String :=
  ((wsSplitAux s.toList []).filter (fun l => l ≠ [])).map String.mk

/-- Line splitting loop: terminators are LF, CRLF and CR, and a trailing
terminator produces no extra empty line, as in Python str.splitlines()
(whose further exotic terminators never occur in this program's data). -/
def splitLinesAux : List Char → List Char → List String
  | [], acc => [String.mk acc.reverse]
  | '\r' :: '\n' :: rest, acc =>
      String.mk acc.reverse :: (if rest.isEmpty then [] else splitLinesAux rest [])
  | '\n' :: rest, acc =>
      String.mk acc.reverse :: (if rest.isEmpty then [] else splitLinesAux rest [])
  | '\r' :: rest, acc =>
      String.mk acc.reverse :: (if rest.isEmpty then [] else splitLinesAux rest [])
  | c :: rest, acc => splitLinesAux rest (c :: acc)

/-- Python str.splitlines(). -/
def pySplitlines (s : String) : List String :=
  if s.toList.isEmpty then [] else splitLinesAux s.toList []

/-- Value of a hexadecimal digit character, by code point: digits are
48..57, lowercase a..f are 97..102, uppercase A..F are 65..70. -/
def hexVal (c : Char) : Option Nat :=
  let n := c.toNat
  if 48 ≤ n && n ≤ 57 then some (n - 48)
  else if 97 ≤ n && n ≤ 102 then some (n - 87)
  else if 65 ≤ n && n ≤ 70 then some (n - 55)
  else none

/-- Python int(s, 16) for the plain hexadecimal digit strings produced by
stat -c percent-t / percent-T (no sign, prefix or underscores); any other
character makes the conversion fail, as int() raises ValueError. -/
def parseHex (s : String) : Option Nat :=
  if s.toList.isEmpty then none
  else s.toList.foldl
    (fun acc c => acc.bind (fun n => (hexVal c).map (fun d => n * 16 + d))) (some 0)

/-- Python falsy-string defaulting, stderr or default. -/
def pyOr (s default : String) : String :=
  if s = "" then default else s

/-! ## Effect model -/

/-- Result of Plugin._run_helper: that wrapper catches every exception of
subprocess.run (returning -1 with the message as stderr), so a helper
invocation always yields a plain triple. -/
structure RunResult where
  rc : Int
  out : String
  err : String
  deriving DecidableEq

/-- Outcome of a direct subprocess.run call site: either a completed
process (exit code, stdout, stderr) or an exception carrying str(e). -/
inductive Spawn where
  | ok (rc : Int) (out err : String)
  | exc (msg : String)
  deriving DecidableEq

/-- Outcome of a subprocess.run call site where FileNotFoundError is
handled separately from other exceptions (the boot counter reset). -/
inductive SpawnB where
  | ok (rc : Int) (out err : String)
  | fileNotFound (msg : String)
  | exc (msg : String)
  deriving DecidableEq

/-- Environment of Plugin._reset_boot_counter: the steamos-bootconf
invocation and the systemd-bless-boot fallback invocation. -/
structure BootEnv where
  bootconf : SpawnB
  blessBoot : SpawnB
  deriving DecidableEq

/-- Outcome of the power-button symlink probe: the path is not a symlink,
it is a symlink with the given target, or os.path.islink / os.readlink
raised. -/
inductive SymlinkProbe where
  | notLink
  | link (target : String)
  | exc (msg : String)
  deriving DecidableEq

/-- Environment of check_hibernate_status: the status helper invocation
and the symlink probe. -/
structure StatusEnv where
  helper : RunResult
  probe : SymlinkProbe
  deriving DecidableEq

/-- The dictionary returned by check_hibernate_status.  Keys that are
present in some of the dictionaries of the source and absent in others
are modelled as Option fields (none means the key is absent). -/
structure StatusResult where
  success : Bool
  error : Option String := none
  swapfile_exists : Option Bool := none
  swap_active : Option Bool := none
  resume_configured : Option Bool := none
  systemd_configured : Option Bool := none
  bluetooth_fix : Option Bool := none
  sleep_conf : Option Bool := none
  ready : Bool
  status_code : String
  message : Option String := none
  power_button_override : Bool
  override_mode : String
  deriving DecidableEq

/-- The result dictionaries of the other operations (prepare, trigger,
hibernate_now, suspend_then_hibernate, set_power_button_override): a
success flag plus optional message, error, uuid and offset keys. -/
structure ResultDict where
  success : Bool
  message : Option String := none
  error : Option String := none
  uuid : Option String := none
  offset : Option String := none
  deriving DecidableEq

/-- The five kernel-facing steps of the trigger sequence. -/
inductive Step where
  | resumeDev
  | resumeOffset
  | diskMode
  | syncCall
  | powerState
  deriving DecidableEq

/-- Externally visible events recorded by the embedded operations.
A step event records that the corresponding write or call was attempted
with the given payload. -/
inductive Ev where
  | bootReset (r : Bool)
  | spawned (name : String) (r : Spawn)
  | step (s : Step) (payload : String)
  | helper (action : String)
  deriving DecidableEq

/-- Project an event to the trigger step it performs, if any. -/
def stepOf : Ev → Option Step
  | .step s _ => some s
  | _ => none

/-- The trigger steps attempted in a trace, in order. -/
def stepsOf (tr : List Ev) : List Step :=
  tr.filterMap stepOf

/-- The canonical order of the five trigger steps (section 4.3 of the
specification). -/
def canonicalSteps : List Step :=
  [.resumeDev, .resumeOffset, .diskMode, .syncCall, .powerState]

/-! ## Readiness state machine (check_hibernate_status) -/

/-- The power-button-override probe of check_hibernate_status: the
variables start as (false, "hibernate"); when the well-known unit path is
a symlink whose target contains "suspend-then-hibernate" the override is
(true, "suspend-then-hibernate"), otherwise when the target contains
"hibernate" it is (true, "hibernate"); a missing symlink or an exception
in the probe leaves the initial values. -/
def probeOverride : SymlinkProbe → Bool × String
  | .link t =>
      if containsSub "suspend-then-hibernate" t then (true, "suspend-then-hibernate")
      else if containsSub "hibernate" t then (true, "hibernate")
      else (false, "hibernate")
  | _ => (false, "hibernate")

/-- The status_map dictionary lookup of check_hibernate_status, with its
default for unrecognised tokens; a dictionary lookup over distinct string
keys is an equality chain. -/
def statusMap (tok : String) (pbo : Bool) (om : String) : StatusResult :=
  if tok = "READY" then
    { success := true, swapfile_exists := some true, swap_active := some true,
      resume_configured := some true, systemd_configured := some true,
      bluetooth_fix := some true, sleep_conf := some true, ready := true,
      status_code := "READY",
      message := some "Hibernation fully configured and ready",
      power_button_override := pbo, override_mode := om }
  else if tok = "SWAPFILE_MISSING" then
    { success := true, swapfile_exists := some false, swap_active := some false,
      resume_configured := some false, ready := false,
      status_code := "SWAPFILE_MISSING",
      message := some "Swapfile not found - setup required",
      power_button_override := pbo, override_mode := om }
  else if tok = "SWAPFILE_TOO_SMALL" then
    { success := true, swapfile_exists := some true, swap_active := some false,
      resume_configured := some false, ready := false,
      status_code := "SWAPFILE_TOO_SMALL",
      message := some "Swapfile too small (need 16GB+) - setup required",
      power_button_override := pbo, override_mode := om }
  else if tok = "SWAP_INACTIVE" then
    { success := true, swapfile_exists := some true, swap_active := some false,
      resume_configured := some false, ready := false,
      status_code := "SWAP_INACTIVE",
      message := some "Swapfile exists but not activated - setup required",
      power_button_override := pbo, override_mode := om }
  else if tok = "RESUME_NOT_CONFIGURED" then
    { success := true, swapfile_exists := some true, swap_active := some true,
      resume_configured := some false, ready := false,
      status_code := "RESUME_NOT_CONFIGURED",
      message := some "Resume parameters not configured - setup required",
      power_button_override := pbo, override_mode := om }
  else if tok = "SYSTEMD_NOT_CONFIGURED" then
    { success := true, swapfile_exists := some true, swap_active := some true,
      resume_configured := some true, systemd_configured := some false,
      ready := false, status_code := "SYSTEMD_NOT_CONFIGURED",
      message := some "Systemd bypass not configured - setup required",
      power_button_override := pbo, override_mode := om }
  else if tok = "BLUETOOTH_FIX_MISSING" then
    { success := true, swapfile_exists := some true, swap_active := some true,
      resume_configured := some true, systemd_configured := some true,
      bluetooth_fix := some false, ready := false,
      status_code := "BLUETOOTH_FIX_MISSING",
      message := some "Bluetooth fix service missing - setup required",
      power_button_override := pbo, override_mode := om }
  else if tok = "SLEEP_CONF_NOT_CONFIGURED" then
    { success := true, swapfile_exists := some true, swap_active := some true,
      resume_configured := some true, systemd_configured := some true,
      bluetooth_fix := some true, sleep_conf := some false, ready := false,
      status_code := "SLEEP_CONF_NOT_CONFIGURED",
      message := some "Sleep configuration missing - setup required",
      power_button_override := pbo, override_mode := om }
  else
    { success := true, ready := false, status_code := "UNKNOWN",
      message := some ("Unknown status: " ++ tok),
      power_button_override := pbo, override_mode := om }

/-- check_hibernate_status: run the status helper (5s timeout); on
non-zero exit return the ERROR dictionary carrying stderr; otherwise strip
stdout to a token, run the advisory symlink probe and look the token up in
status_map. -/
def check_hibernate_status (env : StatusEnv) : StatusResult :=
  if env.helper.rc ≠ 0 then
    { success := false, error := some env.helper.err, ready := false,
      status_code := "ERROR", power_button_override := false,
      override_mode := "hibernate" }
  else
    let p := probeOverride env.probe
    statusMap (pyStrip env.helper.out) p.1 p.2

/-! ## prepare_hibernate -/

/-- The value of output.split("SUCCESS:")[1] when the marker occurs in
output: Python str.split cuts at each non-overlapping occurrence from the
left, so element 1 is the text after the first occurrence and before the
second (the whole remainder when the marker occurs exactly once). -/
def markerSeg (output : String) : String :=
  String.mk (uptoMarker ("SUCCESS:".toList)
    ((afterFirst ("SUCCESS:".toList) output.toList).getD []))

/-- prepare_hibernate: run the prepare helper (120s timeout); non-zero
exit returns failure with stderr (or a default message); on exit 0, if
"SUCCESS:" occurs in the stripped stdout, split the segment after it on
":" and surface field 0 as uuid and field 1 as offset (each defaulting to
"unknown" when absent); otherwise report blanket success. -/
def prepare_hibernate (rr : RunResult) : ResultDict :=
  if rr.rc ≠ 0 then
    { success := false, error := some (pyOr rr.err "Unknown error during setup") }
  else
    let output := pyStrip rr.out
    if containsSub "SUCCESS:" output then
      let parts := pySplitChar ':' (markerSeg output)
      let uuid := match parts with
        | u :: _ => u
        | [] => "unknown"
      let off := match parts with
        | _ :: o :: _ => o
        | _ => "unknown"
      { success := true, message := some "Hibernation setup completed successfully",
        uuid := some uuid, offset := some off }
    else
      { success := true, message := some "Hibernation setup completed successfully" }

/-! ## Resume target resolution and the trigger sequence -/

/-- The offset extraction applied to one line of filefrag -v output: the
line qualifies when its stripped form starts with "0:"; its
whitespace-separated fields must number at least 4, and the offset is
field 3 with trailing dots stripped.  A line that starts with "0:" but
has fewer than 4 fields yields nothing and the scan continues. -/
def offsetOfLine (line : String) : Option String :=
  if pyStartsWith (pyStrip line) "0:" then
    match pySplitWs line with
    | _ :: _ :: _ :: f4 :: _ => some (pyRstripDots f4)
    | _ => none
  else none

/-- The swapfile offset loop of trigger_hibernate: the first line of the
filefrag output that yields an offset, none when the loop falls through
to its else clause. -/
def extractOffset (out : String) : Option String :=
  (pySplitlines out).findSome? offsetOfLine

/-- Environment of trigger_hibernate: the boot counter reset, the three
resolution subprocesses, the four sysfs writes (none means the write
succeeded, some msg means it raised with message msg) and the sync
invocation. -/
structure TriggerEnv where
  boot : BootEnv
  findmnt : Spawn
  statDev : Spawn
  filefrag : Spawn
  writeResume : Option String
  writeOffset : Option String
  writeDisk : Option String
  syncRun : Spawn
  writeState : Option String
  deriving DecidableEq

/-- Outcome of the resume-parameter block of trigger_hibernate (the first
inner try): either the exception message that was caught, or the resume
device string and offset; both carry the events performed. -/
inductive RPOut where
  | fail (msg : String) (evs : List Ev)
  | ok (dev offset : String) (evs : List Ev)
  deriving DecidableEq

/-- Plugin._reset_boot_counter: run steamos-bootconf; on completion the
reset succeeded iff the exit code is 0; on FileNotFoundError fall back to
systemd-bless-boot (success iff it completes with exit code 0, any
exception ignored); any other exception yields false.  No exception ever
escapes. -/
def reset_boot_counter (b : BootEnv) : Bool :=
  match b.bootconf with
  | .ok rc _ _ => rc == 0
  | .fileNotFound _ =>
      match b.blessBoot with
      | .ok rc _ _ => rc == 0
      | _ => false
  | .exc _ => false

/-- The resume-parameter block of trigger_hibernate: findmnt for the
/home source device, stat for its hexadecimal major:minor, filefrag for
the swapfile extent offset, then the writes to /sys/power/resume and
/sys/power/resume_offset.  Any exception (a subprocess error, a raise on
non-zero exit, a parse failure or a failed write) is caught by the block
and becomes a fail outcome. -/
def resumeParams (env : TriggerEnv) : RPOut :=
  match env.findmnt with
  | .exc m => .fail m [Ev.spawned "findmnt" (Spawn.exc m)]
  | .ok rc out err =>
    if rc ≠ 0 then
      .fail "Could not find /home device" [Ev.spawned "findmnt" (Spawn.ok rc out err)]
    else
      match env.statDev with
      | .exc m =>
          .fail m [Ev.spawned "findmnt" (Spawn.ok rc out err),
                   Ev.spawned "stat" (Spawn.exc m)]
      | .ok src sout serr =>
        if src ≠ 0 then
          .fail "Could not stat device"
            [Ev.spawned "findmnt" (Spawn.ok rc out err),
             Ev.spawned "stat" (Spawn.ok src sout serr)]
        else
          match pySplitChar ':' (pyStrip sout) with
          | [mh, nh] =>
            match parseHex mh, parseHex nh with
            | some major, some minor =>
              match env.filefrag with
              | .exc m =>
                  .fail m [Ev.spawned "findmnt" (Spawn.ok rc out err),
                           Ev.spawned "stat" (Spawn.ok src sout serr),
                           Ev.spawned "filefrag" (Spawn.exc m)]
              | .ok frc fout ferr =>
                if frc ≠ 0 then
                  .fail "Could not get swapfile offset"
                    [Ev.spawned "findmnt" (Spawn.ok rc out err),
                     Ev.spawned "stat" (Spawn.ok src sout serr),
                     Ev.spawned "filefrag" (Spawn.ok frc fout ferr)]
                else
                  match extractOffset fout with
                  | none =>
                      .fail "Could not parse swapfile offset"
                        [Ev.spawned "findmnt" (Spawn.ok rc out err),
                         Ev.spawned "stat" (Spawn.ok src sout serr),
                         Ev.spawned "filefrag" (Spawn.ok frc fout ferr)]
                  | some off =>
                    match env.writeResume with
                    | some m =>
                        .fail m
                          [Ev.spawned "findmnt" (Spawn.ok rc out err),
                           Ev.spawned "stat" (Spawn.ok src sout serr),
                           Ev.spawned "filefrag" (Spawn.ok frc fout ferr),
                           Ev.step .resumeDev
                             (toString major ++ ":" ++ toString minor ++ "\n")]
                    | none =>
                      match env.writeOffset with
                      | some m =>
                          .fail m
                            [Ev.spawned "findmnt" (Spawn.ok rc out err),
                             Ev.spawned "stat" (Spawn.ok src sout serr),
                             Ev.spawned "filefrag" (Spawn.ok frc fout ferr),
                             Ev.step .resumeDev
                               (toString major ++ ":" ++ toString minor ++ "\n"),
                             Ev.step .resumeOffset (off ++ "\n")]
                      | none =>
                          .ok (toString major ++ ":" ++ toString minor) off
                            [Ev.spawned "findmnt" (Spawn.ok rc out err),
                             Ev.spawned "stat" (Spawn.ok src sout serr),
                             Ev.spawned "filefrag" (Spawn.ok frc fout ferr),
                             Ev.step .resumeDev
                               (toString major ++ ":" ++ toString minor ++ "\n"),
                             Ev.step .resumeOffset (off ++ "\n")]
            | _, _ =>
                .fail "invalid literal for int() with base 16"
                  [Ev.spawned "findmnt" (Spawn.ok rc out err),
                   Ev.spawned "stat" (Spawn.ok src sout serr)]
          | l =>
              .fail (if l.length < 2 then
                       "not enough values to unpack (expected 2, got " ++
                         toString l.length ++ ")"
                     else "too many values to unpack (expected 2)")
                [Ev.spawned "findmnt" (Spawn.ok rc out err),
                 Ev.spawned "stat" (Spawn.ok src sout serr)]

/-- The outer exception handler of trigger_hibernate: an exception whose
lowered message contains "timeout" or "timed out" is reclassified as
success; anything else is a failure carrying the message. -/
def outerHandler (m : String) : ResultDict :=
  if containsSub "timeout" (pyLower m) || containsSub "timed out" (pyLower m) then
    { success := true, message := some "System is hibernating..." }
  else
    { success := false, error := some m }

/-- trigger_hibernate: reset the boot counter (best-effort), run the
resume-parameter block (a caught failure aborts with the descriptive
error), attempt the hibernation-mode write (its exception is only
logged), invoke sync (check=False tolerates a non-zero exit, but an
exception from the invocation itself propagates to the outer handler),
then write "disk" to the power state file; an exception there is caught
by the innermost handler and returns failure, and a clean write returns
success. -/
def trigger_hibernate (env : TriggerEnv) : ResultDict × List Ev :=
  let bootEv := Ev.bootReset (reset_boot_counter env.boot)
  match resumeParams env with
  | .fail m evs =>
      ({ success := false,
         error := some ("Failed to set resume parameters: " ++ m) },
       bootEv :: evs)
  | .ok _ _ evs =>
      let evs2 := evs ++ [Ev.step .diskMode "platform\n", Ev.step .syncCall ""]
      match env.syncRun with
      | .exc m => (outerHandler m, bootEv :: evs2)
      | .ok _ _ _ =>
          let evs3 := evs2 ++ [Ev.step .powerState "disk\n"]
          match env.writeState with
          | some m =>
              ({ success := false,
                 error := some ("Failed to write to /sys/power/state: " ++ m) },
               bootEv :: evs3)
          | none =>
              ({ success := true, message := some "System is hibernating..." },
               bootEv :: evs3)

/-! ## Workflow composers -/

/-- Environment of hibernate_now. -/
structure HNEnv where
  status : StatusEnv
  prep : RunResult
  trig : TriggerEnv
  deriving DecidableEq

/-- hibernate_now: check readiness; when not ready run prepare and return
its result when it fails; otherwise (or when already ready) run
trigger_hibernate. -/
def hibernate_now (e : HNEnv) : ResultDict × List Ev :=
  let st := check_hibernate_status e.status
  if st.ready then
    let t := trigger_hibernate e.trig
    (t.1, Ev.helper "status" :: t.2)
  else
    let pr := prepare_hibernate e.prep
    if pr.success then
      let t := trigger_hibernate e.trig
      (t.1, Ev.helper "status" :: Ev.helper "prepare" :: t.2)
    else
      (pr, [Ev.helper "status", Ev.helper "prepare"])

/-- Environment of suspend_then_hibernate. -/
structure SThEnv where
  status : StatusEnv
  prep : RunResult
  boot : BootEnv
  sth : RunResult
  deriving DecidableEq

/-- The tail of suspend_then_hibernate after the readiness/prepare gate:
reset the boot counter, invoke the suspend-then-hibernate helper action
(10s timeout) and map its exit code to the result. -/
def sthAfterGate (e : SThEnv) (evs : List Ev) : ResultDict × List Ev :=
  let evs2 := evs ++ [Ev.bootReset (reset_boot_counter e.boot),
                      Ev.helper "suspend-then-hibernate"]
  if e.sth.rc ≠ 0 then
    ({ success := false,
       error := some (pyOr e.sth.err "Unknown error during suspend-then-hibernate") },
     evs2)
  else
    ({ success := true,
       message := some "System is suspending, then will hibernate..." }, evs2)

/-- suspend_then_hibernate: the same readiness/prepare gate as
hibernate_now, then delegate to the helper action. -/
def suspend_then_hibernate (e : SThEnv) : ResultDict × List Ev :=
  let st := check_hibernate_status e.status
  if st.ready then
    sthAfterGate e [Ev.helper "status"]
  else
    let pr := prepare_hibernate e.prep
    if pr.success then
      sthAfterGate e [Ev.helper "status", Ev.helper "prepare"]
    else
      (pr, [Ev.helper "status", Ev.helper "prepare"])

/-- Environment of set_power_button_override. -/
structure PbEnv where
  status : StatusEnv
  helperRun : RunResult
  deriving DecidableEq

/-- The helper action string built by set_power_button_override, an
f-string followed by str.strip(). -/
def pbAction (enabled : Bool) (mode : String) : String :=
  pyStrip ("set-power-button " ++ (if enabled then "enable" else "disable") ++
    " " ++ (if enabled then mode else ""))

/-- set_power_button_override: a fresh readiness check; when it does not
report ready, fail with a fixed error without invoking the helper;
otherwise invoke the helper with the built action and map its exit code
to the result. -/
def set_power_button_override (enabled : Bool) (mode : String) (e : PbEnv) :
    ResultDict × List Ev :=
  let st := check_hibernate_status e.status
  if st.ready then
    let evs := [Ev.helper "status", Ev.helper (pbAction enabled mode)]
    if e.helperRun.rc ≠ 0 then
      ({ success := false,
         error := some (pyOr e.helperRun.err
           "Unknown error setting power button override") }, evs)
    else
      ({ success := true,
         message := some ("Power button override " ++
           (if enabled then "enabled" else "disabled")) }, evs)
  else
    ({ success := false,
       error := some "Hibernation must be set up before enabling power button override" },
     [Ev.helper "status"])

/-! ## Specification-side definitions

These definitions follow the wording of the specification and of the
claims, to be compared with the embedded code. -/

/-- Rank of a known status token in the prerequisite ladder of section 3
of the specification: the number of leading boolean checks that passed
(swapfile_exists, swap_active, resume_configured, systemd_configured,
bluetooth_fix, sleep_conf). -/
def specRank (tok : String) : Option Nat :=
  if tok = "READY" then some 6
  else if tok = "SWAPFILE_MISSING" then some 0
  else if tok = "SWAPFILE_TOO_SMALL" then some 1
  else if tok = "SWAP_INACTIVE" then some 1
  else if tok = "RESUME_NOT_CONFIGURED" then some 2
  else if tok = "SYSTEMD_NOT_CONFIGURED" then some 3
  else if tok = "BLUETOOTH_FIX_MISSING" then some 4
  else if tok = "SLEEP_CONF_NOT_CONFIGURED" then some 5
  else none

/-- The monotone flag bundle of rank n: flag i is asserted exactly when
i < n. -/
def flagsOfRank (n : Nat) : List Bool :=
  (List.range 6).map (fun i => decide (i < n))

/-- The six readiness flags of a status result, in ladder order, read the
way a dictionary consumer reads them: an absent key is not asserted. -/
def assertedFlags (r : StatusResult) : List Bool :=
  [r.swapfile_exists.getD false, r.swap_active.getD false,
   r.resume_configured.getD false, r.systemd_configured.getD false,
   r.bluetooth_fix.getD false, r.sleep_conf.getD false]

/-- Everything in a status result except the power-button-override
fields: the primary status view that the advisory probe must not
influence. -/
def primaryView (r : StatusResult) :
    Bool × Option String × Bool × String × Option String × Option Bool ×
      Option Bool × Option Bool × Option Bool × Option Bool × Option Bool :=
  (r.success, r.error, r.ready, r.status_code, r.message, r.swapfile_exists,
   r.swap_active, r.resume_configured, r.systemd_configured, r.bluetooth_fix,
   r.sleep_conf)

/-- Claim C6 read literally: scan for the first line whose first
whitespace token is exactly "0:" and that has at least 4 fields, and take
field 3 with trailing dots stripped. -/
def firstTokenExtract (out : String) : Option String :=
  (pySplitlines out).findSome? (fun line =>
    match pySplitWs line with
    | t :: _ :: _ :: f4 :: _ => if t = "0:" then some (pyRstripDots f4) else none
    | _ => none)

/-- The amended reading of the offset scan: the first line which, after
stripping surrounding whitespace, begins with the characters "0:" and
splits into at least 4 whitespace-separated fields; the offset is its
field 3 with trailing dots stripped. -/
def amendedOffsetSpec (out : String) : Option String :=
  match (pySplitlines out).filter
      (fun l => pyStartsWith (pyStrip l) "0:" && decide (4 ≤ (pySplitWs l).length)) with
  | [] => none
  | l :: _ => some (pyRstripDots ((pySplitWs l).getD 3 ""))

/-- Claim C8 read literally: the whole remainder of the output after the
first occurrence of the success marker. -/
def remAfterMarker (output : String) : String :=
  String.mk ((afterFirst ("SUCCESS:".toList) output.toList).getD [])

/-- Claim C8 read literally: the uuid is the first colon-delimited field
after the marker. -/
def claimPrepUuid (output : String) : String :=
  (pySplitChar ':' (remAfterMarker output)).headD "unknown"

/-- Claim C8 read literally: the offset is the second colon-delimited
field after the marker, defaulting to "unknown". -/
def claimPrepOffset (output : String) : String :=
  (pySplitChar ':' (remAfterMarker output)).getD 1 "unknown"

/-- Whether the resume-parameter block completed. -/
def RPOut.isOkB : RPOut → Bool
  | .ok _ _ _ => true
  | .fail _ _ => false

/-- Whether a subprocess call site completed without an exception. -/
def Spawn.isOkB : Spawn → Bool
  | .ok _ _ _ => true
  | .exc _ => false

/-! ## Concrete environments for witnesses and counterexamples -/

/-- A boot-counter environment whose first strategy succeeds. -/
def okBoot : BootEnv := ⟨SpawnB.ok 0 "" "", SpawnB.ok 0 "" ""⟩

/-- A trigger environment in which every call site behaves as on a
healthy SteamOS host: findmnt prints the /home source device, stat prints
hexadecimal 103:4 (so the resume device is 259:4), filefrag prints a
first-extent line whose field 3 is 3897600.., and every sysfs write
succeeds. -/
def goodTrigEnv : TriggerEnv :=
  { boot := okBoot
    findmnt := .ok 0 "/dev/nvme0n1p4\n" ""
    statDev := .ok 0 "103:4\n" ""
    filefrag := .ok 0
      "Filesystem type is: ext4\n 0:        0..   32767:    3897600..   3930367:  32768:\n" ""
    writeResume := none
    writeOffset := none
    writeDisk := none
    syncRun := .ok 0 "" ""
    writeState := none }

/-- The healthy environment except that the power-state write raises an
exception whose message is timeout-flavored. -/
def envStateTimeout : TriggerEnv :=
  { goodTrigEnv with writeState := some "Connection timed out" }

/-- The healthy environment except that invoking sync raises (for
example, the binary is missing). -/
def envSyncExc : TriggerEnv :=
  { goodTrigEnv with syncRun := .exc "No such file or directory" }

/-- The healthy environment except that the resume-device write raises. -/
def envResumeFail : TriggerEnv :=
  { goodTrigEnv with writeResume := some "Permission denied" }

/-- A status environment whose helper reports READY. -/
def stReady : StatusEnv := ⟨⟨0, "READY\n", ""⟩, .notLink⟩

/-- A status environment whose helper reports a missing swapfile. -/
def stNotReady : StatusEnv := ⟨⟨0, "SWAPFILE_MISSING\n", ""⟩, .notLink⟩

/-- A status environment whose helper exits non-zero. -/
def stError : StatusEnv := ⟨⟨1, "", "helper exploded"⟩, .notLink⟩

/-- A failing prepare invocation. -/
def prepFailRun : RunResult := ⟨1, "", "disk full"⟩

/-- A successful prepare invocation with the documented marker output. -/
def prepOkRun : RunResult := ⟨0, "SUCCESS:abcd-uuid:4096\n", ""⟩

/-- A hibernate_now environment: not ready, prepare fails. -/
def hnPrepFailEnv : HNEnv := ⟨stNotReady, prepFailRun, goodTrigEnv⟩

/-- A set_power_button_override environment: ready, helper succeeds. -/
def pbReadyEnv : PbEnv := ⟨stReady, ⟨0, "", ""⟩⟩

/-- A status environment whose power-button unit is symlinked to the
suspend-then-hibernate unit. -/
def stLinkSTH : StatusEnv :=
  ⟨⟨0, "READY\n", ""⟩,
   .link "/usr/lib/systemd/system/systemd-suspend-then-hibernate.service"⟩

/-- A filefrag output containing no extent line. -/
def noExtentOut : String := "Filesystem type is: ext4"

/-- The healthy environment except that filefrag prints no extent line. -/
def envNoExtent : TriggerEnv :=
  { goodTrigEnv with filefrag := .ok 0 noExtentOut "" }

/-- A prepare invocation whose stdout contains the success marker
twice. -/
def prepDoubleRun : RunResult := ⟨0, "SUCCESS:abcd-uuidSUCCESS:4096", ""⟩

/-! ## Helper lemmas -/

theorem rp_fail_char (env : TriggerEnv) (m : String) (evs : List Ev)
    (h : resumeParams env = .fail m evs) :
    (stepsOf evs = [] ∨ stepsOf evs = [Step.resumeDev] ∨
        stepsOf evs = [Step.resumeDev, Step.resumeOffset]) ∧
      (∀ a, Ev.helper a ∉ evs) ∧
      (∀ wm, env.writeResume = some wm →
        stepsOf evs = [] ∨ stepsOf evs = [Step.resumeDev]) := by
  unfold resumeParams at h
  (repeat' split at h) <;>
    first
      | exact RPOut.noConfusion h
      | (injection h with hm hevs; subst hevs; simp_all [stepsOf, stepOf])

theorem rp_ok_char (env : TriggerEnv) (d o : String) (evs : List Ev)
    (h : resumeParams env = .ok d o evs) :
    stepsOf evs = [Step.resumeDev, Step.resumeOffset] ∧
      env.writeResume = none ∧ env.writeOffset = none ∧
      ∀ a, Ev.helper a ∉ evs := by
  unfold resumeParams at h
  (repeat' split at h) <;>
    first
      | exact RPOut.noConfusion h
      | (injection h with hd ho hevs; subst hevs; simp_all [stepsOf, stepOf])

theorem trigger_no_helper (env : TriggerEnv) (a : String) :
    Ev.helper a ∉ (trigger_hibernate env).2 := by
  cases h : resumeParams env with
  | fail fm evs =>
      have hnh := (rp_fail_char env fm evs h).2.1 a
      simp [trigger_hibernate, h]
      exact hnh
  | ok d o evs =>
      have hnh := (rp_ok_char env d o evs h).2.2.2 a
      cases hs : env.syncRun with
      | exc sm =>
          simp [trigger_hibernate, h, hs]
          exact hnh
      | ok rc so se =>
          cases hw : env.writeState with
          | some sm =>
              simp [trigger_hibernate, h, hs, hw]
              exact hnh
          | none =>
              simp [trigger_hibernate, h, hs, hw]
              exact hnh

theorem trigger_eq_of (e1 e2 : TriggerEnv)
    (hrp : resumeParams e1 = resumeParams e2)
    (hs : e1.syncRun = e2.syncRun) (hw : e1.writeState = e2.writeState) :
    (trigger_hibernate e1).1 = (trigger_hibernate e2).1 ∧
      stepsOf (trigger_hibernate e1).2 = stepsOf (trigger_hibernate e2).2 := by
  cases h : resumeParams e2 with
  | fail m evs =>
      constructor <;> simp [trigger_hibernate, hrp, h, stepsOf, stepOf]
  | ok d o evs =>
      cases hs2 : e2.syncRun with
      | exc sm =>
          constructor <;>
            simp [trigger_hibernate, hrp, h, hs, hs2, stepsOf, stepOf]
      | ok rc so se =>
          cases hw2 : e2.writeState with
          | none =>
              constructor <;>
                simp [trigger_hibernate, hrp, h, hs, hs2, hw, hw2, stepsOf, stepOf]
          | some sm =>
              constructor <;>
                simp [trigger_hibernate, hrp, h, hs, hs2, hw, hw2, stepsOf, stepOf]

/-- Claim C3: in trigger_hibernate the five kernel-facing steps are
attempted in the strict order resume-device, resume-offset,
hibernation-mode, sync, power-state, each at most once (the attempted
steps always form a prefix of that order); and when the resume-device
write fails the operation returns a failure and neither the resume-offset
write nor the power-state write is ever attempted. -/
theorem c3_trigger_write_ordering (env : TriggerEnv) (m : String) :
    (stepsOf (trigger_hibernate env).2 <+: canonicalSteps ∧
      ∀ s : Step, (stepsOf (trigger_hibernate env).2).count s ≤ 1) ∧
    (env.writeResume = some m →
      (trigger_hibernate env).1.success = false ∧
      Step.resumeOffset ∉ stepsOf (trigger_hibernate env).2 ∧
      Step.powerState ∉ stepsOf (trigger_hibernate env).2) := by
  cases h : resumeParams env with
  | fail fm evs =>
      obtain ⟨hsteps, hnh, hwr⟩ := rp_fail_char env fm evs h
      have htr : stepsOf (trigger_hibernate env).2 = stepsOf evs := by
        simp [trigger_hibernate, h, stepsOf, stepOf]
      have hsucc : (trigger_hibernate env).1.success = false := by
        simp [trigger_hibernate, h]
      refine ⟨⟨?_, ?_⟩, ?_⟩
      · rw [htr]
        rcases hsteps with h1 | h1 | h1 <;> rw [h1]
        · exact ⟨canonicalSteps, rfl⟩
        · exact ⟨[.resumeOffset, .diskMode, .syncCall, .powerState], rfl⟩
        · exact ⟨[.diskMode, .syncCall, .powerState], rfl⟩
      · intro s
        rw [htr]
        rcases hsteps with h1 | h1 | h1 <;> rw [h1] <;> cases s <;> decide
      · intro hw
        refine ⟨hsucc, ?_, ?_⟩ <;> rw [htr] <;>
          rcases hwr m hw with h1 | h1 <;> rw [h1] <;> decide
  | ok d o evs =>
      obtain ⟨hsteps, hwrNone, hwoNone, hnh⟩ := rp_ok_char env d o evs h
      have hwr : ∀ P : Prop, env.writeResume = some m → P := by
        intro P hw
        rw [hwrNone] at hw
        exact Option.noConfusion hw
      cases hs : env.syncRun with
      | exc sm =>
          have htr : stepsOf (trigger_hibernate env).2 =
              stepsOf evs ++ [Step.diskMode, Step.syncCall] := by
            simp [trigger_hibernate, h, hs, stepsOf, stepOf]
          refine ⟨⟨?_, ?_⟩, fun hw => hwr _ hw⟩
          · rw [htr, hsteps]
            exact ⟨[.powerState], rfl⟩
          · intro s
            rw [htr, hsteps]
            cases s <;> decide
      | ok rc so se =>
          cases hw : env.writeState with
          | some sm =>
              have htr : stepsOf (trigger_hibernate env).2 =
                  stepsOf evs ++ [Step.diskMode, Step.syncCall, Step.powerState] := by
                simp [trigger_hibernate, h, hs, hw, stepsOf, stepOf]
              refine ⟨⟨?_, ?_⟩, fun hwx => hwr _ hwx⟩
              · rw [htr, hsteps]
                exact ⟨[], by decide⟩
              · intro s
                rw [htr, hsteps]
                cases s <;> decide
          | none =>
              have htr : stepsOf (trigger_hibernate env).2 =
                  stepsOf evs ++ [Step.diskMode, Step.syncCall, Step.powerState] := by
                simp [trigger_hibernate, h, hs, hw, stepsOf, stepOf]
              refine ⟨⟨?_, ?_⟩, fun hwx => hwr _ hwx⟩
              · rw [htr, hsteps]
                exact ⟨[], by decide⟩
              · intro s
                rw [htr, hsteps]
                cases s <;> decide

theorem c3_trigger_write_ordering_witness :
    (stepsOf (trigger_hibernate envResumeFail).2 <+: canonicalSteps ∧
      ∀ s : Step, (stepsOf (trigger_hibernate envResumeFail).2).count s ≤ 1) ∧
    ((trigger_hibernate envResumeFail).1.success = false ∧
      Step.resumeOffset ∉ stepsOf (trigger_hibernate envResumeFail).2 ∧
      Step.powerState ∉ stepsOf (trigger_hibernate envResumeFail).2) :=
  ⟨(c3_trigger_write_ordering envResumeFail "Permission denied").1,
   (c3_trigger_write_ordering envResumeFail "Permission denied").2 rfl⟩

/-- Claim C5: when the status helper invocation exits non-zero,
check_hibernate_status returns the ERROR report: success false, error set
to the helper's stderr, ready false, status_code ERROR. -/
theorem c5_status_helper_failure (env : StatusEnv) (h : env.helper.rc ≠ 0) :
    check_hibernate_status env =
      { success := false, error := some env.helper.err, ready := false,
        status_code := "ERROR", power_button_override := false,
        override_mode := "hibernate" } := by
  simp [check_hibernate_status, h]

theorem c5_status_helper_failure_witness :
    check_hibernate_status stError =
      { success := false, error := some "helper exploded", ready := false,
        status_code := "ERROR", power_button_override := false,
        override_mode := "hibernate" } :=
  (c5_status_helper_failure stError (by decide)).trans (by decide)

/-- Claim C1 as stated is false: an exception raised by the final
power-state write whose message is timeout-flavored does not produce a
success; the inner handler catches it and returns a failure.  Here every
call site behaves and the power-state write raises with the message
"Connection timed out", which contains "timed out" case-insensitively,
yet the result is a failure and not the hibernating message. -/
theorem c1_timeout_state_write_counterexample :
    envStateTimeout.writeState = some "Connection timed out" ∧
    containsSub "timed out" (pyLower "Connection timed out") = true ∧
    (trigger_hibernate envStateTimeout).1.success = false ∧
    (trigger_hibernate envStateTimeout).1.message ≠ some "System is hibernating..." := by
  decide

/-- Claim C1 amended: an exception raised by the attempted power-state
write always yields the failure dictionary carrying the descriptive
error, regardless of whether its message is timeout-flavored; the
timeout-to-success reclassification of the outer handler applies only to
exceptions raised outside the inner try blocks (in this code, an
exception from the sync invocation). -/
theorem c1_state_write_exception_always_fails (env : TriggerEnv) (m : String)
    (h1 : (resumeParams env).isOkB = true) (h2 : env.syncRun.isOkB = true)
    (h3 : env.writeState = some m) :
    (trigger_hibernate env).1 =
      { success := false,
        error := some ("Failed to write to /sys/power/state: " ++ m) } := by
  cases h : resumeParams env with
  | fail fm evs =>
      rw [h] at h1
      exact absurd h1 (by simp [RPOut.isOkB])
  | ok d o evs =>
      cases hs : env.syncRun with
      | exc sm =>
          rw [hs] at h2
          exact absurd h2 (by simp [Spawn.isOkB])
      | ok rc so se =>
          simp [trigger_hibernate, h, hs, h3]

theorem c1_state_write_exception_always_fails_witness :
    (trigger_hibernate envStateTimeout).1 =
      { success := false,
        error := some "Failed to write to /sys/power/state: Connection timed out" } :=
  (c1_state_write_exception_always_fails envStateTimeout "Connection timed out"
    (by decide) (by decide) rfl).trans (by decide)

/-- Claim C7 as stated is false for the sync sub-step: when invoking sync
raises an exception (for example the binary is missing), the exception
propagates out of the step sequence, trigger_hibernate returns a failure
result and the power-state write is skipped, although every other call
site of the environment behaves. -/
theorem c7_sync_exception_counterexample :
    envSyncExc.writeResume = none ∧ envSyncExc.writeOffset = none ∧
    envSyncExc.writeDisk = none ∧ envSyncExc.writeState = none ∧
    (trigger_hibernate envSyncExc).1.success = false ∧
    Step.powerState ∉ stepsOf (trigger_hibernate envSyncExc).2 := by
  decide

/-- Claim C7 amended: the outcome of the boot-counter reset never
influences the result or the attempted steps of trigger_hibernate (nor
the result of suspend_then_hibernate); the outcome of the
hibernation-mode write never influences them; and a completed sync
invocation influences them regardless of its exit status.  (An exception
raised while invoking sync, by contrast, aborts the sequence, as the
counterexample shows.) -/
theorem c7_best_effort_amended :
    (∀ (e : TriggerEnv) (b : BootEnv),
        (trigger_hibernate { e with boot := b }).1 = (trigger_hibernate e).1 ∧
        stepsOf (trigger_hibernate { e with boot := b }).2 =
          stepsOf (trigger_hibernate e).2) ∧
    (∀ (e : TriggerEnv) (dm : String),
        (trigger_hibernate { e with writeDisk := some dm }).1 =
          (trigger_hibernate { e with writeDisk := none }).1 ∧
        stepsOf (trigger_hibernate { e with writeDisk := some dm }).2 =
          stepsOf (trigger_hibernate { e with writeDisk := none }).2) ∧
    (∀ (e : TriggerEnv) (rc : Int) (so se : String),
        (trigger_hibernate { e with syncRun := Spawn.ok rc so se }).1 =
          (trigger_hibernate { e with syncRun := Spawn.ok 0 "" "" }).1 ∧
        stepsOf (trigger_hibernate { e with syncRun := Spawn.ok rc so se }).2 =
          stepsOf (trigger_hibernate { e with syncRun := Spawn.ok 0 "" "" }).2) ∧
    (∀ (e : SThEnv) (b : BootEnv),
        (suspend_then_hibernate { e with boot := b }).1 =
          (suspend_then_hibernate e).1) := by
  refine ⟨?_, ?_, ?_, ?_⟩
  · intro e b
    obtain ⟨bo, fm, sd, ff, wr, wo, wd, sy, ws⟩ := e
    exact trigger_eq_of _ _ rfl rfl rfl
  · intro e dm
    obtain ⟨bo, fm, sd, ff, wr, wo, wd, sy, ws⟩ := e
    exact trigger_eq_of _ _ rfl rfl rfl
  · intro e rc so se
    obtain ⟨bo, fm, sd, ff, wr, wo, wd, sy, ws⟩ := e
    cases h : resumeParams (⟨bo, fm, sd, ff, wr, wo, wd, Spawn.ok rc so se, ws⟩ : TriggerEnv) with
    | fail m evs =>
        have h2 : resumeParams (⟨bo, fm, sd, ff, wr, wo, wd, Spawn.ok 0 "" "", ws⟩ : TriggerEnv) =
            .fail m evs := h
        constructor <;> simp [trigger_hibernate, h, h2]
    | ok d o evs =>
        have h2 : resumeParams (⟨bo, fm, sd, ff, wr, wo, wd, Spawn.ok 0 "" "", ws⟩ : TriggerEnv) =
            .ok d o evs := h
        cases ws with
        | none => constructor <;> simp [trigger_hibernate, h, h2]
        | some sm => constructor <;> simp [trigger_hibernate, h, h2]
  · intro e b
    obtain ⟨st, pr, bo, sth⟩ := e
    simp only [suspend_then_hibernate, sthAfterGate]
    split_ifs <;> rfl

/-- Claim C4: hibernate_now checks readiness first; when ready it skips
the prepare helper entirely and proceeds directly to the trigger; when
not ready and the prepare helper fails, it returns the prepare failure
result having performed no resolution subprocess and no sysfs write. -/
theorem c4_hibernate_now_gate (e : HNEnv) :
    ((check_hibernate_status e.status).ready = true →
      hibernate_now e =
        ((trigger_hibernate e.trig).1,
          Ev.helper "status" :: (trigger_hibernate e.trig).2) ∧
      Ev.helper "prepare" ∉ (hibernate_now e).2) ∧
    ((check_hibernate_status e.status).ready = false →
      (prepare_hibernate e.prep).success = false →
      (hibernate_now e).1 = prepare_hibernate e.prep ∧
      (hibernate_now e).2 = [Ev.helper "status", Ev.helper "prepare"] ∧
      stepsOf (hibernate_now e).2 = [] ∧
      ∀ n r, Ev.spawned n r ∉ (hibernate_now e).2) := by
  constructor
  · intro hr
    have heq : hibernate_now e =
        ((trigger_hibernate e.trig).1,
          Ev.helper "status" :: (trigger_hibernate e.trig).2) := by
      simp [hibernate_now, hr]
    refine ⟨heq, ?_⟩
    rw [heq]
    simp
    exact trigger_no_helper e.trig "prepare"
  · intro hr hp
    have heq : hibernate_now e =
        (prepare_hibernate e.prep, [Ev.helper "status", Ev.helper "prepare"]) := by
      simp [hibernate_now, hr, hp]
    rw [heq]
    refine ⟨rfl, rfl, by simp [stepsOf, stepOf], by simp⟩

theorem c4_hibernate_now_gate_witness :
    (hibernate_now hnPrepFailEnv).1 = prepare_hibernate prepFailRun ∧
    (hibernate_now hnPrepFailEnv).2 = [Ev.helper "status", Ev.helper "prepare"] ∧
    stepsOf (hibernate_now hnPrepFailEnv).2 = [] ∧
    ∀ n r, Ev.spawned n r ∉ (hibernate_now hnPrepFailEnv).2 :=
  (c4_hibernate_now_gate hnPrepFailEnv).2 (by decide) (by decide)

/-- Claim C2: on exit 0 the stripped token is looked up; each of the 8
known tokens yields exactly the monotone flag bundle of its rank in the
prerequisite ladder, with ready true exactly for READY; any other token
yields the UNKNOWN result with ready false and no flag asserted. -/
theorem c2_status_token_flag_map (env : StatusEnv) (h : env.helper.rc = 0) :
    (∀ n, specRank (pyStrip env.helper.out) = some n →
        assertedFlags (check_hibernate_status env) = flagsOfRank n ∧
        (check_hibernate_status env).ready =
          decide (pyStrip env.helper.out = "READY") ∧
        (check_hibernate_status env).status_code = pyStrip env.helper.out ∧
        (check_hibernate_status env).success = true) ∧
    (specRank (pyStrip env.helper.out) = none →
        (check_hibernate_status env).status_code = "UNKNOWN" ∧
        (check_hibernate_status env).ready = false ∧
        assertedFlags (check_hibernate_status env) =
          [false, false, false, false, false, false]) := by
  have hch : check_hibernate_status env =
      statusMap (pyStrip env.helper.out)
        (probeOverride env.probe).1 (probeOverride env.probe).2 := by
    simp [check_hibernate_status, h]
  rw [hch]
  generalize pyStrip env.helper.out = tok
  by_cases h1 : tok = "READY"
  · subst h1
    refine ⟨fun n hn => ?_, fun hn => ?_⟩ <;> simp [specRank] at hn
    subst hn
    have hf : flagsOfRank 6 = [true, true, true, true, true, true] := by decide
    simp [statusMap, assertedFlags, hf]
  · by_cases h2 : tok = "SWAPFILE_MISSING"
    · subst h2
      refine ⟨fun n hn => ?_, fun hn => ?_⟩ <;> simp [specRank] at hn
      subst hn
      have hf : flagsOfRank 0 = [false, false, false, false, false, false] := by decide
      simp [statusMap, assertedFlags, hf]
    · by_cases h3 : tok = "SWAPFILE_TOO_SMALL"
      · subst h3
        refine ⟨fun n hn => ?_, fun hn => ?_⟩ <;> simp [specRank] at hn
        subst hn
        have hf : flagsOfRank 1 = [true, false, false, false, false, false] := by decide
        simp [statusMap, assertedFlags, hf]
      · by_cases h4 : tok = "SWAP_INACTIVE"
        · subst h4
          refine ⟨fun n hn => ?_, fun hn => ?_⟩ <;> simp [specRank] at hn
          subst hn
          have hf : flagsOfRank 1 = [true, false, false, false, false, false] := by decide
          simp [statusMap, assertedFlags, hf]
        · by_cases h5 : tok = "RESUME_NOT_CONFIGURED"
          · subst h5
            refine ⟨fun n hn => ?_, fun hn => ?_⟩ <;> simp [specRank] at hn
            subst hn
            have hf : flagsOfRank 2 = [true, true, false, false, false, false] := by decide
            simp [statusMap, assertedFlags, hf]
          · by_cases h6 : tok = "SYSTEMD_NOT_CONFIGURED"
            · subst h6
              refine ⟨fun n hn => ?_, fun hn => ?_⟩ <;> simp [specRank] at hn
              subst hn
              have hf : flagsOfRank 3 = [true, true, true, false, false, false] := by decide
              simp [statusMap, assertedFlags, hf]
            · by_cases h7 : tok = "BLUETOOTH_FIX_MISSING"
              · subst h7
                refine ⟨fun n hn => ?_, fun hn => ?_⟩ <;> simp [specRank] at hn
                subst hn
                have hf : flagsOfRank 4 = [true, true, true, true, false, false] := by decide
                simp [statusMap, assertedFlags, hf]
              · by_cases h8 : tok = "SLEEP_CONF_NOT_CONFIGURED"
                · subst h8
                  refine ⟨fun n hn => ?_, fun hn => ?_⟩ <;> simp [specRank] at hn
                  subst hn
                  have hf : flagsOfRank 5 = [true, true, true, true, true, false] := by decide
                  simp [statusMap, assertedFlags, hf]
                · refine ⟨fun n hn => ?_, fun hn => ?_⟩
                  · simp [specRank, h1, h2, h3, h4, h5, h6, h7, h8] at hn
                  · simp [statusMap, assertedFlags, h1, h2, h3, h4, h5, h6, h7, h8]

theorem c2_status_token_flag_map_witness :
    assertedFlags (check_hibernate_status stReady) = flagsOfRank 6 ∧
    (check_hibernate_status stReady).ready = decide (pyStrip stReady.helper.out = "READY") ∧
    (check_hibernate_status stReady).status_code = pyStrip stReady.helper.out ∧
    (check_hibernate_status stReady).success = true :=
  (c2_status_token_flag_map stReady rfl).1 6 (by decide)


/-- Claim C9: set_power_button_override runs a fresh readiness check;
when it does not report ready it fails with the fixed error message
without invoking the set-power-button helper action; when ready (and the
mode is one of the two HibernateMode values) it invokes the helper with
exactly the expected action string. -/
theorem c9_power_button_gate (enabled : Bool) (mode : String) (e : PbEnv) :
    ((check_hibernate_status e.status).ready = false →
      (set_power_button_override enabled mode e).1 =
        { success := false,
          error := some "Hibernation must be set up before enabling power button override" } ∧
      (set_power_button_override enabled mode e).2 = [Ev.helper "status"]) ∧
    ((check_hibernate_status e.status).ready = true →
      (mode = "hibernate" ∨ mode = "suspend-then-hibernate") →
      (set_power_button_override enabled mode e).2 =
        [Ev.helper "status",
         Ev.helper (if enabled then "set-power-button enable " ++ mode
                    else "set-power-button disable")]) := by
  constructor
  · intro hr
    constructor <;> simp [set_power_button_override, hr]
  · intro hr hm
    have hact : pbAction enabled mode =
        (if enabled then "set-power-button enable " ++ mode
         else "set-power-button disable") := by
      rcases hm with hm | hm <;> subst hm <;> cases enabled <;> decide
    have h2 : (set_power_button_override enabled mode e).2 =
        [Ev.helper "status", Ev.helper (pbAction enabled mode)] := by
      by_cases hrc : e.helperRun.rc ≠ 0 <;>
        simp [set_power_button_override, hr, hrc]
    rw [h2, hact]

theorem c9_power_button_gate_witness :
    (set_power_button_override true "hibernate" pbReadyEnv).2 =
      [Ev.helper "status",
       Ev.helper (if true then "set-power-button enable " ++ "hibernate"
                  else "set-power-button disable")] :=
  (c9_power_button_gate true "hibernate" pbReadyEnv).2 (by decide) (Or.inl rfl)

theorem statusMap_override (tok : String) (pbo : Bool) (om : String) :
    (statusMap tok pbo om).power_button_override = pbo ∧
      (statusMap tok pbo om).override_mode = om := by
  unfold statusMap
  split_ifs <;> exact ⟨rfl, rfl⟩

theorem statusMap_primary (tok : String) (p1 p2 : Bool) (o1 o2 : String) :
    primaryView (statusMap tok p1 o1) = primaryView (statusMap tok p2 o2) := by
  unfold statusMap
  split_ifs <;> rfl

theorem probeOverride_mode_cases (p : SymlinkProbe) :
    (probeOverride p).2 = "hibernate" ∨
      (probeOverride p).2 = "suspend-then-hibernate" := by
  cases p <;> simp [probeOverride]
  split_ifs <;> simp

theorem occurs_of_isPrefixOf (n l : List Char) (hn : n ≠ [])
    (h : n.isPrefixOf l = true) : (afterFirst n l).isSome = true := by
  cases l with
  | nil =>
      cases n with
      | nil => exact absurd rfl hn
      | cons c cs => simp [List.isPrefixOf] at h
  | cons c rest => simp [afterFirst, h]

theorem occurs_cons (n : List Char) (c : Char) (rest : List Char)
    (h : (afterFirst n rest).isSome = true) :
    (afterFirst n (c :: rest)).isSome = true := by
  by_cases hp : n.isPrefixOf (c :: rest) <;> simp [afterFirst, hp, h]

theorem occurs_append_left (n pre l : List Char)
    (h : (afterFirst n l).isSome = true) :
    (afterFirst n (pre ++ l)).isSome = true := by
  induction pre with
  | nil => simpa using h
  | cons c t ih =>
      rw [List.cons_append]
      exact occurs_cons n c (t ++ l) ih

theorem occurs_decompose (n l : List Char)
    (h : (afterFirst n l).isSome = true) :
    ∃ pre suf, l = pre ++ n ++ suf := by
  induction l with
  | nil => simp [afterFirst] at h
  | cons c rest ih =>
      by_cases hp : n.isPrefixOf (c :: rest)
      · obtain ⟨t, ht⟩ := List.isPrefixOf_iff_prefix.mp hp
        exact ⟨[], t, by simp [ht.symm]⟩
      · simp [afterFirst, hp] at h
        obtain ⟨pre, suf, hps⟩ := ih h
        exact ⟨c :: pre, suf, by simp [hps]⟩

theorem sth_contains_hibernate (t : String)
    (h : containsSub "suspend-then-hibernate" t = true) :
    containsSub "hibernate" t = true := by
  unfold containsSub at h ⊢
  obtain ⟨pre, suf, hps⟩ := occurs_decompose _ _ h
  have hsplit : ("suspend-then-hibernate".toList : List Char) =
      "suspend-then-".toList ++ "hibernate".toList := by decide
  rw [hsplit] at hps
  have hrw : t.toList =
      (pre ++ "suspend-then-".toList) ++ ("hibernate".toList ++ suf) := by
    rw [hps]
    simp [List.append_assoc]
  rw [hrw]
  apply occurs_append_left
  exact occurs_of_isPrefixOf _ _ (by decide)
    (List.isPrefixOf_iff_prefix.mpr ⟨suf, rfl⟩)

/-- Claim C10: in the power-button probe of check_hibernate_status the
suspend-then-hibernate substring is tested before the hibernate
substring, so a target containing it yields that mode; a target
containing only hibernate yields override mode hibernate; a missing
symlink, a probe exception or a target containing neither yields no
override with mode hibernate; override_mode is always one of exactly
those two strings, and the probe never influences the primary status
fields. -/
theorem c10_override_probe (env : StatusEnv) (t em : String) :
    (env.helper.rc = 0 → env.probe = SymlinkProbe.link t →
      (containsSub "suspend-then-hibernate" t = true →
        (check_hibernate_status env).power_button_override = true ∧
        (check_hibernate_status env).override_mode = "suspend-then-hibernate") ∧
      (containsSub "suspend-then-hibernate" t = false →
        containsSub "hibernate" t = true →
        (check_hibernate_status env).power_button_override = true ∧
        (check_hibernate_status env).override_mode = "hibernate") ∧
      (containsSub "hibernate" t = false →
        (check_hibernate_status env).power_button_override = false ∧
        (check_hibernate_status env).override_mode = "hibernate")) ∧
    (env.helper.rc = 0 →
      (env.probe = SymlinkProbe.notLink ∨ env.probe = SymlinkProbe.exc em) →
      (check_hibernate_status env).power_button_override = false ∧
      (check_hibernate_status env).override_mode = "hibernate") ∧
    ((check_hibernate_status env).override_mode = "hibernate" ∨
      (check_hibernate_status env).override_mode = "suspend-then-hibernate") ∧
    (∀ p1 p2 : SymlinkProbe,
      primaryView (check_hibernate_status { env with probe := p1 }) =
        primaryView (check_hibernate_status { env with probe := p2 })) := by
  obtain ⟨hr, pr⟩ := env
  refine ⟨?_, ?_, ?_, ?_⟩
  · intro h0 hp
    have h0' : hr.rc = 0 := h0
    subst hp
    have hch : check_hibernate_status ⟨hr, SymlinkProbe.link t⟩ =
        statusMap (pyStrip hr.out) (probeOverride (SymlinkProbe.link t)).1
          (probeOverride (SymlinkProbe.link t)).2 := by
      simp [check_hibernate_status, h0']
    rw [hch]
    obtain ⟨ho1, ho2⟩ := statusMap_override (pyStrip hr.out)
      (probeOverride (SymlinkProbe.link t)).1 (probeOverride (SymlinkProbe.link t)).2
    rw [ho1, ho2]
    refine ⟨fun hc => ?_, fun hc1 hc2 => ?_, fun hc => ?_⟩
    · simp [probeOverride, hc]
    · simp [probeOverride, hc1, hc2]
    · rcases Bool.eq_false_or_eq_true
          (containsSub "suspend-then-hibernate" t) with ht | hf
      · have h2 := sth_contains_hibernate t ht
        rw [hc] at h2
        exact Bool.noConfusion h2
      · simp [probeOverride, hf, hc]
  · intro h0 hp
    have h0' : hr.rc = 0 := h0
    have hch : check_hibernate_status ⟨hr, pr⟩ =
        statusMap (pyStrip hr.out) (probeOverride pr).1 (probeOverride pr).2 := by
      simp [check_hibernate_status, h0']
    rw [hch]
    obtain ⟨ho1, ho2⟩ := statusMap_override (pyStrip hr.out)
      (probeOverride pr).1 (probeOverride pr).2
    rw [ho1, ho2]
    rcases hp with hp | hp <;> subst hp <;> simp [probeOverride]
  · by_cases h0 : hr.rc ≠ 0
    · left
      simp [check_hibernate_status, h0]
    · have hch : check_hibernate_status ⟨hr, pr⟩ =
          statusMap (pyStrip hr.out) (probeOverride pr).1 (probeOverride pr).2 := by
        simp [check_hibernate_status, h0]
      rw [hch, (statusMap_override _ _ _).2]
      exact probeOverride_mode_cases pr
  · intro p1 p2
    by_cases h0 : hr.rc ≠ 0
    · simp [check_hibernate_status, h0]
    · have h1 : check_hibernate_status ⟨hr, p1⟩ =
          statusMap (pyStrip hr.out) (probeOverride p1).1 (probeOverride p1).2 := by
        simp [check_hibernate_status, h0]
      have h2 : check_hibernate_status ⟨hr, p2⟩ =
          statusMap (pyStrip hr.out) (probeOverride p2).1 (probeOverride p2).2 := by
        simp [check_hibernate_status, h0]
      rw [h1, h2]
      exact statusMap_primary _ _ _ _ _

theorem c10_override_probe_witness :
    (check_hibernate_status stLinkSTH).power_button_override = true ∧
    (check_hibernate_status stLinkSTH).override_mode = "suspend-then-hibernate" :=
  ((c10_override_probe stLinkSTH
      "/usr/lib/systemd/system/systemd-suspend-then-hibernate.service" "x").1
    rfl rfl).1 (by decide)

theorem offsetOfLine_eq_none (l : String)
    (h : (pyStartsWith (pyStrip l) "0:" &&
        decide (4 ≤ (pySplitWs l).length)) = false) :
    offsetOfLine l = none := by
  by_cases hs : pyStartsWith (pyStrip l) "0:"
  · simp [hs] at h
    unfold offsetOfLine
    rw [if_pos hs]
    rcases hl : pySplitWs l with _ | ⟨x1, _ | ⟨x2, _ | ⟨x3, _ | ⟨x4, r⟩⟩⟩⟩
    · rfl
    · rfl
    · rfl
    · rfl
    · exfalso
      rw [hl] at h
      simp [List.length_cons] at h
      omega
  · unfold offsetOfLine
    rw [if_neg hs]

theorem offsetOfLine_eq_some (l : String)
    (h : (pyStartsWith (pyStrip l) "0:" &&
        decide (4 ≤ (pySplitWs l).length)) = true) :
    offsetOfLine l = some (pyRstripDots ((pySplitWs l).getD 3 "")) := by
  rw [Bool.and_eq_true] at h
  obtain ⟨hs, hlen⟩ := h
  rw [decide_eq_true_eq] at hlen
  unfold offsetOfLine
  rw [if_pos hs]
  rcases hl : pySplitWs l with _ | ⟨x1, _ | ⟨x2, _ | ⟨x3, _ | ⟨x4, r⟩⟩⟩⟩
  · rw [hl] at hlen
    simp at hlen
  · rw [hl] at hlen
    simp at hlen
  · rw [hl] at hlen
    simp at hlen
  · rw [hl] at hlen
    simp at hlen
  · simp [List.getD]

theorem extract_eq_amended_list (ls : List String) :
    ls.findSome? offsetOfLine =
      (match ls.filter (fun l => pyStartsWith (pyStrip l) "0:" &&
          decide (4 ≤ (pySplitWs l).length)) with
       | [] => none
       | l :: _ => some (pyRstripDots ((pySplitWs l).getD 3 ""))) := by
  induction ls with
  | nil => rfl
  | cons a t ih =>
      rcases Bool.eq_false_or_eq_true (pyStartsWith (pyStrip a) "0:" &&
          decide (4 ≤ (pySplitWs a).length)) with hp | hp
      · simp only [List.findSome?_cons, offsetOfLine_eq_some a hp,
          List.filter_cons, hp, if_true]
      · simp only [List.findSome?_cons, offsetOfLine_eq_none a hp,
          List.filter_cons, hp, if_false]
        exact ih

theorem rp_extract_none (env : TriggerEnv) (fo fe : String)
    (hf : env.filefrag = Spawn.ok 0 fo fe) (he : extractOffset fo = none) :
    ∃ m evs, resumeParams env = .fail m evs ∧ stepsOf evs = [] := by
  unfold resumeParams
  simp only [hf, he]
  (repeat' split) <;> refine ⟨_, _, rfl, ?_⟩ <;> simp [stepsOf, stepOf]

/-- Claim C6 as stated is false: on the filefrag output line
"0:x a b 5.." no line has "0:" as its first whitespace token, so the
literal reading of the claim finds no qualifying line, yet the code
accepts the line (its stripped form starts with the characters "0:") and
extracts the offset "5". -/
theorem c6_offset_first_token_counterexample :
    extractOffset "0:x a b 5.." = some "5" ∧
    firstTokenExtract "0:x a b 5.." = none := by decide

/-- Claim C6 amended: the scan accepts the first line which, after
stripping surrounding whitespace, begins with the characters "0:" (not
necessarily as a whole token) and has at least 4 whitespace-separated
fields, taking field 3 with trailing dots stripped ("12345.." yields
"12345"); when no such line exists, resolution fails: trigger_hibernate
returns a failure and no sysfs write is attempted. -/
theorem c6_offset_extraction_amended (fo fe : String) (env : TriggerEnv) :
    extractOffset fo = amendedOffsetSpec fo ∧
    pyRstripDots "12345.." = "12345" ∧
    (env.filefrag = Spawn.ok 0 fo fe → extractOffset fo = none →
      (trigger_hibernate env).1.success = false ∧
      stepsOf (trigger_hibernate env).2 = []) := by
  refine ⟨extract_eq_amended_list (pySplitlines fo), by decide, ?_⟩
  intro hf he
  obtain ⟨m, evs, hrp, hst⟩ := rp_extract_none env fo fe hf he
  constructor
  · simp [trigger_hibernate, hrp]
  · have h2 : stepsOf (trigger_hibernate env).2 = stepsOf evs := by
      simp [trigger_hibernate, hrp, stepsOf, stepOf]
    rw [h2, hst]

theorem c6_offset_extraction_amended_witness :
    extractOffset noExtentOut = amendedOffsetSpec noExtentOut ∧
    (trigger_hibernate envNoExtent).1.success = false ∧
    stepsOf (trigger_hibernate envNoExtent).2 = [] := by
  have h := c6_offset_extraction_amended noExtentOut "" envNoExtent
  exact ⟨h.1, h.2.2 rfl (by decide)⟩

/-- Claim C8 as stated is false when the marker occurs twice: for
prepare stdout "SUCCESS:abcd-uuidSUCCESS:4096" the code takes the text
between the two occurrences, yielding uuid "abcd-uuid" and offset
"unknown", while the first and second colon-delimited fields of the text
after the (first) marker are "abcd-uuidSUCCESS" and "4096". -/
theorem c8_double_marker_counterexample :
    (prepare_hibernate prepDoubleRun).success = true ∧
    (prepare_hibernate prepDoubleRun).uuid = some "abcd-uuid" ∧
    (prepare_hibernate prepDoubleRun).offset = some "unknown" ∧
    claimPrepUuid (pyStrip prepDoubleRun.out) = "abcd-uuidSUCCESS" ∧
    claimPrepOffset (pyStrip prepDoubleRun.out) = "4096" := by decide

/-- Claim C8 amended: when the prepare helper exits 0 and "SUCCESS:"
occurs in the stripped stdout, the colon-split of the segment between the
first and second occurrences of the marker (the whole remainder when the
marker occurs once) supplies the uuid (field 0) and the offset (field 1,
defaulting to "unknown" when there is no second field); when the marker
is absent the result is a blanket success carrying no uuid or offset. -/
theorem c8_prepare_parse_amended (rr : RunResult) (h : rr.rc = 0) :
    (containsSub "SUCCESS:" (pyStrip rr.out) = true →
      prepare_hibernate rr =
        { success := true,
          message := some "Hibernation setup completed successfully",
          uuid := some ((pySplitChar ':' (markerSeg (pyStrip rr.out))).headD "unknown"),
          offset := some ((pySplitChar ':' (markerSeg (pyStrip rr.out))).getD 1 "unknown") }) ∧
    (containsSub "SUCCESS:" (pyStrip rr.out) = false →
      prepare_hibernate rr =
        { success := true,
          message := some "Hibernation setup completed successfully" }) := by
  have hrc : ¬rr.rc ≠ 0 := by simp [h]
  constructor <;> intro hc
  · simp only [prepare_hibernate, if_neg hrc, hc, if_true]
    rcases hp : pySplitChar ':' (markerSeg (pyStrip rr.out)) with _ | ⟨u, _ | ⟨o, rest⟩⟩ <;>
      simp [List.getD]
  · simp [prepare_hibernate, hrc, hc]

theorem c8_prepare_parse_amended_witness :
    prepare_hibernate prepOkRun =
      { success := true,
        message := some "Hibernation setup completed successfully",
        uuid := some ((pySplitChar ':' (markerSeg (pyStrip prepOkRun.out))).headD "unknown"),
        offset := some ((pySplitChar ':' (markerSeg (pyStrip prepOkRun.out))).getD 1 "unknown") } :=
  (c8_prepare_parse_amended prepOkRun rfl).1 (by decide)
